import Mathlib

/-!
# Verification of the netlify-gateway-server authentication module

Shallow embedding of `src/server/authentication.ts` (the OIDC verifier, the
passport user serialization, and the `/oidc-callback` redirect-target
resolution) together with the persistent-store interface it consumes
(`§6` of the design document: `findByEmail`, `findById`, `save` with
storage-level email uniqueness).

JavaScript conventions that matter for fidelity are modelled explicitly:
optional values are `Option`, the `||` fallback and truthiness coercions
are spelled out at each use site, and the TypeORM `select: ['id']`
projection returns an entity whose unselected columns are `undefined`.
-/

set_option autoImplicit false

namespace Gateway

/-- Identity claims delivered by the provider (`UserinfoResponse`):
`sub`, `name`, `email`, `email_verified`, `picture`.  `picture` is optional
in the protocol, hence `Option`. -/
structure Claims where
  sub : String
  name : String
  email : String
  email_verified : Bool
  picture : Option String
  deriving Repr, DecidableEq

/-- The persistent `User` entity: `id` (the provider subject identifier),
`name`, `email`, `profileImage`, `isAdmin`. -/
structure User where
  id : String
  name : String
  email : String
  profileImage : String
  isAdmin : Bool
  deriving Repr, DecidableEq

/-- The persistent `Site` entity: `domain` and the `editors` relation
(loaded by the callback handler via `relations: ['editors']`). -/
structure Site where
  domain : String
  editors : List User
  deriving Repr, DecidableEq

/-- The persistent User store, abstracted as the list of stored records. -/
abbrev UserStore := List User

/-- At most one `User` per email address (the §3 invariant, enforced by the
storage layer's uniqueness constraint). -/
def EmailUnique (store : UserStore) : Prop :=
  ∀ u v, u ∈ store → v ∈ store → u.email = v.email → u = v

/-- Modelled from the spec: `findById(id) → User?` of the persistent User
store (§6).  Returns the record whose identifier matches, if any. -/
def findById (store : UserStore) (userId : String) : Option User :=
  store.find? (fun u => u.id == userId)

/-- Modelled from the spec: `save(user)` (insert-or-update) of the
persistent User store (§6).  Replaces the record with the same identifier,
or appends a new record. -/
def save (store : UserStore) (u : User) : UserStore :=
  if store.any (fun v => v.id == u.id) then
    store.map (fun v => if v.id == u.id then u else v)
  else
    store ++ [u]

/-- The result of the verifier's lookup
`getRepository(User).findOne({ where: { email }, select: ['id'] })`.
Because of the `select: ['id']` projection only the `id` column is
populated on the returned entity; every unselected column — in particular
`isAdmin` — is `undefined`, modelled as `Option Bool` here. -/
structure SelectedUser where
  id : String
  isAdmin : Option Bool
  deriving Repr, DecidableEq

/-- `getRepository(User).findOne({ where: { email: profile.email },
select: ['id'] })`: first stored record with the given email, projected to
its `id` column (`isAdmin := none` mirrors the unselected, hence
`undefined`, column). -/
def findOneByEmailSelectId (store : UserStore) (email : String) :
    Option SelectedUser :=
  (store.find? (fun u => u.email == email)).map
    (fun u => { id := u.id, isAdmin := none })

/-- JavaScript truthiness of a possibly-`undefined` boolean, as used when a
`boolean | undefined` value lands in a boolean `||` chain. -/
def jsTruthy (o : Option Bool) : Bool :=
  o.getD false

/-- The subexpression `adminSub && profile.sub === adminSub` of the
verifier: an `undefined` or empty `adminSub` is falsy, otherwise the
result is the equality test. -/
def adminSubMatch (adminSub : Option String) (sub : String) : Bool :=
  match adminSub with
  | none => false
  | some a => (a != "") && (sub == a)

/-- The guard `existingUser && existingUser.id !== profile.sub` of the
verifier. -/
def conflictsWith (existingUser : Option SelectedUser) (sub : String) : Bool :=
  match existingUser with
  | none => false
  | some eu => eu.id != sub

/-- Rejection reasons surfaced by the verifier via `done(new Error(...))`. -/
inductive RejectionReason where
  | EmailNotVerified
  | EmailConflict
  deriving Repr, DecidableEq

/-- The OIDC `verifier` of `getAuthStrategy` (authentication.ts, lines
64–105), with the persistent store passed explicitly.  Returns the value
handed to `done` together with the store after the call:

* `if (!profile.email_verified)` → `EmailNotVerified`, store untouched;
* `findOne({ where: { email }, select: ['id'] })`;
* `if (existingUser && existingUser.id !== profile.sub)` →
  `EmailConflict`, store untouched;
* otherwise build
  `{ id: sub, name, email, profileImage: picture || '',
     isAdmin: existingUser?.isAdmin || (adminSub && sub === adminSub) }`
  — note that `existingUser?.isAdmin` reads the unselected (`undefined`)
  column — then `save` it and return it. -/
def verifier (adminSub : Option String) (store : UserStore)
    (profile : Claims) : Except RejectionReason User × UserStore :=
  if profile.email_verified = false then
    (.error .EmailNotVerified, store)
  else
    let existingUser := findOneByEmailSelectId store profile.email
    if conflictsWith existingUser profile.sub then
      (.error .EmailConflict, store)
    else
      let user : User :=
        { id := profile.sub
          name := profile.name
          email := profile.email
          profileImage := profile.picture.getD ""
          isAdmin := jsTruthy (existingUser.bind (fun eu => eu.isAdmin))
            || adminSubMatch adminSub profile.sub }
      (.ok user, save store user)

/-- Modelled from the spec: the storage layer enforces the email
uniqueness constraint and rejects a write that would leave two distinct
Users with the same email (§5, §6).  On success the write is the
insert-or-update `save`. -/
def saveChecked (store : UserStore) (u : User) : Except Unit UserStore :=
  if store.any (fun v => v.email == u.email && v.id != u.id) then
    .error ()
  else
    .ok (save store u)

/-- The verifier's commit step after its pre-checks have passed, taken
verbatim from the source:

```
getRepository(User).save(user);
return done(null, user);
```

The `save` promise is neither awaited nor given a rejection handler, so
its outcome — here the storage layer's uniqueness verdict on
`storeAtWrite`, the store state when the write executes, which under
concurrent logins may differ from the state the pre-check observed —
never reaches `done`: the user is returned unconditionally. -/
def verifierCommit (storeAtWrite : UserStore) (user : User) :
    Except RejectionReason User × Except Unit UserStore :=
  (.ok user, saveChecked storeAtWrite user)

/-- `passport.serializeUser`: records only `user.id` in the session. -/
def serializeUser (u : User) : String :=
  u.id

/-- Failure of session resolution: the referenced User no longer exists
(`findOneOrFail` rejected). -/
inductive DeserializeError where
  | UserNotFound
  deriving Repr, DecidableEq

/-- `passport.deserializeUser`: re-fetches the full record via
`getRepository(User).findOneOrFail(userId)`; a missing record becomes the
error handed to `done(error)`. -/
def deserializeUser (store : UserStore) (userId : String) :
    Except DeserializeError User :=
  match findById store userId with
  | some u => .ok u
  | none => .error .UserNotFound

/-- `redirectUrl.startsWith('/')` as used by the callback handler. -/
def startsWithSlash (s : String) : Bool :=
  match s.data with
  | [] => false
  | c :: _ => c == '/'

/-- A character that ends the authority component of a URL. -/
def isAuthorityEnd (c : Char) : Bool :=
  c == '/' || c == '?' || c == '#'

/-- A character allowed in the scheme of a URL by Node's legacy parser
(`/^[a-z0-9.+-]+:/i`). -/
def isSchemeChar (c : Char) : Bool :=
  c.isAlpha || c.isDigit || c == '.' || c == '+' || c == '-'

/-- Strip the userinfo of an authority component: keep the characters
after the last `@`, the whole authority when there is none. -/
def stripUserinfo (cs : List Char) : List Char :=
  ((cs.reverse.takeWhile (fun c => !(c == '@'))).reverse)

/-- The `host` component of Node's legacy `url.parse`, on the character
list of the input: a host exists exactly when a non-empty scheme is
followed by `://`; it is the authority up to the first `/`, `?` or `#`,
with userinfo stripped and letters lowercased.  Inputs without a scheme
(the handler never parses strings starting with `/`) have `host: null`. -/
def hostOfChars (cs : List Char) : Option (List Char) :=
  let scheme := cs.takeWhile isSchemeChar
  match cs.drop scheme.length with
  | ':' :: '/' :: '/' :: rest =>
    if scheme.isEmpty then
      none
    else
      some ((stripUserinfo (rest.takeWhile (fun c => !isAuthorityEnd c))).map
        Char.toLower)
  | _ => none

/-- `url.parse(redirectUrl).host`. -/
def urlParseHost (s : String) : Option String :=
  (hostOfChars s.data).map List.asString

/-- `getRepository(Site).findOne({ where: { domain: parsedUrl.host },
relations: ['editors'] })`.  When the parsed host is `null` no persisted
site (whose `domain` column is a string) matches. -/
def findSiteByDomain (sites : List Site) (host : Option String) :
    Option Site :=
  match host with
  | none => none
  | some h => sites.find? (fun st => st.domain == h)

/-- The redirect-target resolution of the `/oidc-callback` handler
(authentication.ts, lines 191–208), with the Site store and the
authenticated `req.user` passed explicitly:

```
let redirectUrl = req.query.state || '/';
if (redirectUrl && !redirectUrl.startsWith('/')) {
  const parsedUrl = url.parse(redirectUrl);
  const site = await getRepository(Site).findOne({
    where: { domain: parsedUrl.host }, relations: ['editors'] });
  if (!req.user || !site ||
      !site.editors?.find((user) => user.id === req.user!.id)) {
    redirectUrl = '/';
  }
}
res.redirect(redirectUrl);
```
-/
def callbackRedirect (sites : List Site) (user : Option User)
    (state : Option String) : String :=
  let redirectUrl := match state with
    | none => "/"
    | some s => if s == "" then "/" else s
  if redirectUrl != "" && !(startsWithSlash redirectUrl) then
    let site := findSiteByDomain sites (urlParseHost redirectUrl)
    let authorized : Bool := match user, site with
      | some u, some st => (st.editors.find? (fun e => e.id == u.id)).isSome
      | _, _ => false
    if authorized then redirectUrl else "/"
  else
    redirectUrl

/-! ## Helper lemmas -/

/-- Under the email-uniqueness invariant, the verifier's `findOne` by email
returns exactly the stored record carrying that email. -/
theorem findByEmail_of_unique (store : UserStore) (u : User) (e : String) :
    EmailUnique store → u ∈ store → u.email = e →
    store.find? (fun v => v.email == e) = some u := by
  induction store with
  | nil =>
    intro _ hmem _
    simp at hmem
  | cons a t ih =>
    intro huniq hmem he
    rcases List.mem_cons.mp hmem with rfl | hmt
    · exact List.find?_cons_of_pos _ (by simp [he])
    · by_cases ha : a.email = e
      · have hau : a = u :=
          huniq a u (List.mem_cons_self a t) (List.mem_cons_of_mem a hmt)
            (by rw [ha, he])
        exact hau ▸ List.find?_cons_of_pos _ (by simp [ha])
      · rw [List.find?_cons_of_neg _ (by simp [ha])]
        exact ih (fun x y hx hy => huniq x y (List.mem_cons_of_mem a hx)
          (List.mem_cons_of_mem a hy)) hmt he

theorem callbackRedirect_none (sites : List Site) (user : Option User) :
    callbackRedirect sites user none = "/" := rfl

theorem callbackRedirect_empty (sites : List Site) (user : Option User) :
    callbackRedirect sites user (some "") = "/" := rfl

/-- A target that begins with `/` short-circuits the handler's validation:
the result is the target itself, for every Site store and every user. -/
theorem callbackRedirect_slash (sites : List Site) (user : Option User)
    (t : String) (hne : t ≠ "") (hsw : startsWithSlash t = true) :
    callbackRedirect sites user (some t) = t := by
  simp [callbackRedirect, hne, hsw]

/-- Evaluation of the handler on a target that does not begin with `/`:
the result is the target when the authorization test passes, the root path
otherwise. -/
theorem callbackRedirect_cross_eval (sites : List Site) (user : Option User)
    (t : String) (hne : t ≠ "") (hsw : startsWithSlash t = false) :
    callbackRedirect sites user (some t) =
      (if (match user, findSiteByDomain sites (urlParseHost t) with
          | some u, some st =>
            (st.editors.find? (fun e => e.id == u.id)).isSome
          | _, _ => false) = true
        then t else "/") := by
  simp [callbackRedirect, hne, hsw]

/-- On a target that does not begin with `/`, the handler returns either
the root path or the target itself. -/
theorem callbackRedirect_cross (sites : List Site) (user : Option User)
    (t : String) (hne : t ≠ "") (hsw : startsWithSlash t = false) :
    callbackRedirect sites user (some t) = "/" ∨
      callbackRedirect sites user (some t) = t := by
  rw [callbackRedirect_cross_eval sites user t hne hsw]
  by_cases hb : (match user, findSiteByDomain sites (urlParseHost t) with
      | some u, some st => (st.editors.find? (fun e => e.id == u.id)).isSome
      | _, _ => false) = true
  · right
    simp [hb]
  · left
    simp [hb]

/-- A target without a parseable host (no `scheme://` authority) that does
not begin with `/` is downgraded to the root path: the Site lookup by a
`null` domain finds nothing. -/
theorem callbackRedirect_no_host (sites : List Site) (user : Option User)
    (t : String) (hne : t ≠ "") (hsw : startsWithSlash t = false)
    (hhost : urlParseHost t = none) :
    callbackRedirect sites user (some t) = "/" := by
  rw [callbackRedirect_cross_eval sites user t hne hsw]
  cases user with
  | none => simp [hhost, findSiteByDomain]
  | some u => simp [hhost, findSiteByDomain]

/-! ## Claims about the Identity Reconciler -/

/-- C3: for every claims value whose email-verified flag is false, the
verifier rejects with `EmailNotVerified` and leaves the persistent User
store unchanged. -/
theorem reconcile_unverified_rejected_no_write (adminSub : Option String)
    (store : UserStore) (profile : Claims)
    (h : profile.email_verified = false) :
    verifier adminSub store profile = (.error .EmailNotVerified, store) := by
  simp [verifier, h]

theorem reconcile_unverified_rejected_no_write_witness :
    verifier none
      [{ id := "u1", name := "N", email := "a@x.com", profileImage := "",
         isAdmin := false }]
      { sub := "u2", name := "M", email := "b@x.com",
        email_verified := false, picture := none }
      = (.error .EmailNotVerified,
        [{ id := "u1", name := "N", email := "a@x.com", profileImage := "",
           isAdmin := false }]) :=
  reconcile_unverified_rejected_no_write none
    [{ id := "u1", name := "N", email := "a@x.com", profileImage := "",
       isAdmin := false }]
    { sub := "u2", name := "M", email := "b@x.com",
      email_verified := false, picture := none } rfl

/-- C4: for every claims value with a verified email, when a stored User
carries the same email under a different identifier (the store satisfying
the email-uniqueness invariant), the verifier rejects with `EmailConflict`
and leaves the persistent User store unchanged. -/
theorem reconcile_conflict_rejected_no_write (adminSub : Option String)
    (store : UserStore) (profile : Claims) (u : User)
    (huniq : EmailUnique store)
    (hv : profile.email_verified = true)
    (hmem : u ∈ store) (he : u.email = profile.email)
    (hid : u.id ≠ profile.sub) :
    verifier adminSub store profile = (.error .EmailConflict, store) := by
  have hfind := findByEmail_of_unique store u profile.email huniq hmem he
  simp [verifier, hv, findOneByEmailSelectId, hfind, conflictsWith, hid]

theorem reconcile_conflict_rejected_no_write_witness :
    verifier none
      [{ id := "u1", name := "N", email := "a@x.com", profileImage := "",
         isAdmin := false }]
      { sub := "u2", name := "M", email := "a@x.com",
        email_verified := true, picture := none }
      = (.error .EmailConflict,
        [{ id := "u1", name := "N", email := "a@x.com", profileImage := "",
           isAdmin := false }]) :=
  reconcile_conflict_rejected_no_write none
    [{ id := "u1", name := "N", email := "a@x.com", profileImage := "",
       isAdmin := false }]
    { sub := "u2", name := "M", email := "a@x.com",
      email_verified := true, picture := none }
    { id := "u1", name := "N", email := "a@x.com", profileImage := "",
      isAdmin := false }
    (by
      intro x y hx hy _
      simp at hx hy
      rw [hx, hy])
    rfl (by simp) rfl (by decide)

/-- C2: administrator status is *not* monotonic in the code.  The stored
record for subject `u1` is an administrator; a successful reconcile for
the same subject with claims that do not trigger admin promotion
(`adminSub` is configured as `boss ≠ u1`) persists the record with the
administrator flag `false`: the `select: ['id']` projection of the
verifier's lookup never loads `isAdmin`, so `existingUser?.isAdmin` is
always `undefined` and the previously granted flag is overwritten. -/
theorem reconcile_admin_flag_not_monotonic :
    verifier (some "boss")
      [{ id := "u1", name := "N", email := "a@x.com", profileImage := "",
         isAdmin := true }]
      { sub := "u1", name := "N", email := "a@x.com",
        email_verified := true, picture := some "" }
      = (.ok { id := "u1", name := "N", email := "a@x.com",
                profileImage := "", isAdmin := false },
        [{ id := "u1", name := "N", email := "a@x.com", profileImage := "",
           isAdmin := false }]) := by
  rfl

/-- C7: the general admin-flag rule of the claim fails on the code — an
existing administrator record does not keep the flag (first conjunct,
same `select: ['id']` slip as in the monotonicity claim), while the
bootstrap-administrator scenario of the claim does hold: subject `abc123`
with bootstrap-admin subject `abc123` yields identifier `abc123` and
administrator `true` (second conjunct), and name, email and profile image
are copied from the claims in both. -/
theorem reconcile_synthesis_admin_rule :
    (verifier (some "boss")
      [{ id := "u1", name := "N", email := "a@x.com", profileImage := "",
         isAdmin := true }]
      { sub := "u1", name := "N2", email := "a@x.com",
        email_verified := true, picture := some "p.png" }).1
      = .ok { id := "u1", name := "N2", email := "a@x.com",
                profileImage := "p.png", isAdmin := false }
    ∧ (verifier (some "abc123") []
      { sub := "abc123", name := "A", email := "a@x.com",
        email_verified := true, picture := none }).1
      = .ok { id := "abc123", name := "A", email := "a@x.com",
                profileImage := "", isAdmin := true } := by
  constructor
  · rfl
  · rfl

/-- C6: a storage-level uniqueness rejection of the write is *not*
surfaced as a rejection by the code.  The store at write time already
holds `u2` with email `a@x.com` (a concurrent first-login won the race
after this call's pre-check saw no such record); the checked save of the
synthesized `u1` record is rejected by the uniqueness constraint, yet the
verifier's commit step still hands `done` the user — the caller receives
an authenticated identity, not an `EmailConflict`. -/
theorem reconcile_write_conflict_ignored :
    verifierCommit
      [{ id := "u2", name := "M", email := "a@x.com", profileImage := "",
         isAdmin := false }]
      { id := "u1", name := "N", email := "a@x.com", profileImage := "",
        isAdmin := false }
      = (.ok { id := "u1", name := "N", email := "a@x.com",
                profileImage := "", isAdmin := false },
        .error ()) := by
  rfl

/-! ## Claims about session serialization -/

/-- C8: session serialization records only the User identifier, and
resolution re-fetches the record stored under that identifier — returning
the latest stored record when one exists and failing with `UserNotFound`
when none does. -/
theorem session_serialize_id_resolve_latest (store : UserStore)
    (u latest : User) :
    serializeUser u = u.id
    ∧ (findById store u.id = some latest →
        deserializeUser store (serializeUser u) = .ok latest)
    ∧ (findById store u.id = none →
        deserializeUser store (serializeUser u) = .error .UserNotFound) := by
  refine ⟨rfl, ?_, ?_⟩ <;> intro h <;> simp [deserializeUser, serializeUser, h]

theorem session_serialize_id_resolve_latest_witness :
    deserializeUser
      [{ id := "u1", name := "New", email := "n@x.com", profileImage := "",
         isAdmin := true }]
      (serializeUser { id := "u1", name := "Old", email := "o@x.com",
                       profileImage := "", isAdmin := false })
      = .ok { id := "u1", name := "New", email := "n@x.com",
                profileImage := "", isAdmin := true }
    ∧ deserializeUser []
      (serializeUser { id := "u1", name := "Old", email := "o@x.com",
                       profileImage := "", isAdmin := false })
      = .error .UserNotFound :=
  ⟨(session_serialize_id_resolve_latest
      [{ id := "u1", name := "New", email := "n@x.com", profileImage := "",
         isAdmin := true }]
      { id := "u1", name := "Old", email := "o@x.com", profileImage := "",
        isAdmin := false }
      { id := "u1", name := "New", email := "n@x.com", profileImage := "",
        isAdmin := true }).2.1 (by decide),
   (session_serialize_id_resolve_latest []
      { id := "u1", name := "Old", email := "o@x.com", profileImage := "",
        isAdmin := false }
      { id := "u1", name := "New", email := "n@x.com", profileImage := "",
        isAdmin := true }).2.2 rfl⟩

/-! ## Claims about the callback's redirect-target validation -/

/-- C1: a target that does not begin with `/` (the handler's cross-origin
branch) whose parsed host matches no stored Site's domain is downgraded to
the root path, for every authenticated user. -/
theorem callback_unknown_site_defaults_root (sites : List Site) (u : User)
    (t h : String) (hne : t ≠ "") (hsw : startsWithSlash t = false)
    (hhost : urlParseHost t = some h)
    (hnosite : ∀ st ∈ sites, st.domain ≠ h) :
    callbackRedirect sites (some u) (some t) = "/" := by
  have hfind : sites.find? (fun st => st.domain == h) = none :=
    List.find?_eq_none.mpr (fun st hst => by simp [hnosite st hst])
  rw [callbackRedirect_cross_eval sites (some u) t hne hsw]
  simp [hhost, findSiteByDomain, hfind]

theorem callback_unknown_site_defaults_root_witness :
    callbackRedirect []
      (some { id := "u", name := "N", email := "a@x.com",
              profileImage := "", isAdmin := false })
      (some "https://evil.example/a") = "/" :=
  callback_unknown_site_defaults_root []
    { id := "u", name := "N", email := "a@x.com", profileImage := "",
      isAdmin := false }
    "https://evil.example/a" "evil.example"
    (by decide) rfl rfl (by simp)

/-- C5: for a target that does not begin with `/` whose parsed host
matches a stored Site's domain, the redirect is the root path when the
authenticated user is not in the Site's editor set, and the target itself
when the user is in the editor set. -/
theorem callback_site_editor_check (sites : List Site) (u : User)
    (t h : String) (site : Site)
    (hne : t ≠ "") (hsw : startsWithSlash t = false)
    (hhost : urlParseHost t = some h)
    (hsite : findSiteByDomain sites (some h) = some site) :
    ((¬ ∃ e ∈ site.editors, e.id = u.id) →
        callbackRedirect sites (some u) (some t) = "/")
    ∧ ((∃ e ∈ site.editors, e.id = u.id) →
        callbackRedirect sites (some u) (some t) = t) := by
  have hiff : (site.editors.find? (fun e => e.id == u.id)).isSome = true
      ↔ ∃ e ∈ site.editors, e.id = u.id := by
    simp [List.find?_isSome]
  constructor
  · intro hno
    have hfalse : (site.editors.find? (fun e => e.id == u.id)).isSome
        = false := by
      cases hb : (site.editors.find? (fun e => e.id == u.id)).isSome with
      | false => rfl
      | true => exact absurd (hiff.mp hb) hno
    rw [callbackRedirect_cross_eval sites (some u) t hne hsw]
    simp [hhost, hsite, hfalse]
  · intro hyes
    rw [callbackRedirect_cross_eval sites (some u) t hne hsw]
    simp [hhost, hsite, hiff.mpr hyes]

theorem callback_site_editor_check_witness :
    callbackRedirect
      [{ domain := "ok.example",
         editors := [{ id := "u", name := "N", email := "a@x.com",
                       profileImage := "", isAdmin := false }] }]
      (some { id := "u", name := "N", email := "a@x.com",
              profileImage := "", isAdmin := false })
      (some "https://ok.example/page") = "https://ok.example/page" :=
  (callback_site_editor_check
    [{ domain := "ok.example",
       editors := [{ id := "u", name := "N", email := "a@x.com",
                     profileImage := "", isAdmin := false }] }]
    { id := "u", name := "N", email := "a@x.com", profileImage := "",
      isAdmin := false }
    "https://ok.example/page" "ok.example"
    { domain := "ok.example",
      editors := [{ id := "u", name := "N", email := "a@x.com",
                    profileImage := "", isAdmin := false }] }
    (by decide) rfl rfl rfl).2
    ⟨{ id := "u", name := "N", email := "a@x.com", profileImage := "",
       isAdmin := false }, by simp, rfl⟩

/-- C9: counterexample — the path-relative target `docs/home` is not
returned unchanged by the handler: it does not begin with `/`, its host
parses to `null`, the Site lookup finds nothing, and the redirect is
downgraded to the root path. -/
theorem callback_path_relative_changed :
    callbackRedirect []
      (some { id := "u", name := "N", email := "a@x.com",
              profileImage := "", isAdmin := false })
      (some "docs/home") = "/"
    ∧ "docs/home" ≠ "/" :=
  ⟨rfl, by decide⟩

/-- C9 (amended): redirect-target resolution is total and always produces
either the root path or the caller's target; an empty or missing target
yields the root path; a target beginning with `/` is returned unchanged;
a non-empty target that does not begin with `/` and has no parseable host
(malformed or path-relative input) is downgraded to the root path. -/
theorem callback_redirect_total (sites : List Site) (user : Option User)
    (state : Option String) :
    (callbackRedirect sites user state = "/"
      ∨ ∃ t, state = some t ∧ callbackRedirect sites user state = t)
    ∧ ((state = none ∨ state = some "") →
        callbackRedirect sites user state = "/")
    ∧ (∀ t, state = some t → startsWithSlash t = true →
        callbackRedirect sites user state = t)
    ∧ (∀ t, state = some t → t ≠ "" → startsWithSlash t = false →
        urlParseHost t = none → callbackRedirect sites user state = "/") := by
  refine ⟨?_, ?_, ?_, ?_⟩
  · cases state with
    | none => exact Or.inl (callbackRedirect_none sites user)
    | some s =>
      by_cases hs : s = ""
      · subst hs
        exact Or.inl (callbackRedirect_empty sites user)
      · cases hsw : startsWithSlash s with
        | true =>
          exact Or.inr ⟨s, rfl, callbackRedirect_slash sites user s hs hsw⟩
        | false =>
          rcases callbackRedirect_cross sites user s hs hsw with h | h
          · exact Or.inl h
          · exact Or.inr ⟨s, rfl, h⟩
  · rintro (rfl | rfl)
    · exact callbackRedirect_none sites user
    · exact callbackRedirect_empty sites user
  · rintro t rfl hsw
    by_cases hs : t = ""
    · subst hs
      exact absurd hsw (by decide)
    · exact callbackRedirect_slash sites user t hs hsw
  · rintro t rfl hne hsw hhost
    exact callbackRedirect_no_host sites user t hne hsw hhost

theorem callback_redirect_total_witness :
    startsWithSlash "/dash" = true
    ∧ callbackRedirect [] none (some "/dash") = "/dash" :=
  ⟨by decide,
   (callback_redirect_total [] none (some "/dash")).2.2.1 "/dash" rfl
     (by decide)⟩

/-- C10: a non-empty state beginning with `/` — including protocol-relative
values such as `//evil.example/x` — is redirected unchanged: the result is
the state itself for every Site store and every (possibly absent) user, so
neither a Site lookup nor an editor-set check can influence it. -/
theorem callback_slash_state_unvalidated (sites : List Site)
    (user : Option User) (t : String) (hne : t ≠ "")
    (hsw : startsWithSlash t = true) :
    callbackRedirect sites user (some t) = t :=
  callbackRedirect_slash sites user t hne hsw

theorem callback_slash_state_unvalidated_witness :
    callbackRedirect [{ domain := "evil.example", editors := [] }] none
      (some "//evil.example/x") = "//evil.example/x" :=
  callback_slash_state_unvalidated
    [{ domain := "evil.example", editors := [] }] none
    "//evil.example/x" (by decide) rfl

end Gateway
